import Mathlib

/-!
Shallow embedding of `src/content_blocking.rs` from the adblock-rust
repository: the converter from parsed adblock filter records
(`NetworkFilter`, `CosmeticFilter`) into Safari content-blocking rules
(`CbRule`), together with proofs of the specification's claims about it.

Strings are embedded as `List Char` (named `Str`); the Rust `HashSet` of
resource types is embedded as `Finset CbResourceType`; bitmask option
flags are embedded as a structure of named `Bool` fields, following the
bitflags declaration of the upstream `filters/network.rs` module.
Rust panics (`unwrap` on `None`, `unreachable!`) are embedded as a
distinguished `abort` outcome of the `Conv` result type.
-/

/-- Characters of a string, the embedding of Rust `String` / `&str`. -/
abbrev Str : Type := List Char

/-- Convert a Lean string literal into the `Str` embedding. -/
def strL (s : String) : Str := s.data

/-- Embedding of `CbType`: the action kinds of a content blocking rule. -/
inductive CbType where
  | block
  | blockCookies
  | cssDisplayNone
  | ignorePreviousRules
  | makeHttps
deriving DecidableEq, Repr

/-- Embedding of `CbLoadType`. -/
inductive CbLoadType where
  | firstParty
  | thirdParty
deriving DecidableEq, Repr

/-- Embedding of `CbResourceType`. -/
inductive CbResourceType where
  | document
  | image
  | styleSheet
  | script
  | font
  | raw
  | svgDocument
  | media
  | popup
deriving DecidableEq, Repr

/-- Embedding of `CbAction`: an action kind plus an optional CSS selector. -/
structure CbAction where
  typ : CbType
  selector : Option Str
deriving DecidableEq, Repr

/-- Embedding of `CbTrigger`.  Field defaults mirror `Default for CbTrigger`
(`url_filter` empty, optional fields `None`, `load_type` the empty vector). -/
structure CbTrigger where
  url_filter : Str := []
  url_filter_is_case_sensitive : Option Bool := none
  if_domain : Option (List Str) := none
  unless_domain : Option (List Str) := none
  resource_type : Option (Finset CbResourceType) := none
  load_type : List CbLoadType := []
  if_top_url : Option (List Str) := none
  unless_top_url : Option (List Str) := none
deriving DecidableEq

/-- Embedding of `CbRule`: one content blocking rule. -/
structure CbRule where
  action : CbAction
  trigger : CbTrigger
deriving DecidableEq

/-- Embedding of the `NetworkFilterMask` bitflags from the upstream
`filters/network.rs` module as a structure of named booleans; `contains`
of a single flag is projection of the corresponding field. -/
structure NetworkFilterMask where
  thirdParty : Bool := false
  firstParty : Bool := false
  fromHttp : Bool := false
  fromHttps : Bool := false
  fromWebsocket : Bool := false
  fromImage : Bool := false
  fromMedia : Bool := false
  fromObject : Bool := false
  fromOther : Bool := false
  fromPing : Bool := false
  fromScript : Bool := false
  fromStylesheet : Bool := false
  fromSubdocument : Bool := false
  fromXmlhttprequest : Bool := false
  fromFont : Bool := false
  isException : Bool := false
  isHostnameRegex : Bool := false
  isLeftAnchor : Bool := false
  isRightAnchor : Bool := false
  fuzzyMatch : Bool := false
  genericHide : Bool := false
  explicitCancel : Bool := false
  badFilter : Bool := false
  isCsp : Bool := false
  matchCase : Bool := false
deriving DecidableEq, Repr

/-- Embedding of `NetworkFilterMask::empty()`: no flag set. -/
def NetworkFilterMask.empty : NetworkFilterMask := {}

/-- Modelled from the spec: `FROM_ANY` is the union of every resource-type
flag, so `mask.contains(NetworkFilterMask::FROM_ANY)` holds exactly when the
record's flags indicate "matches any resource type", i.e. every resource-type
flag is set.  (The bitflags declaration lives in the upstream
`filters/network.rs` module, which is outside the transpiler core.) -/
def NetworkFilterMask.from_any (m : NetworkFilterMask) : Bool :=
  m.fromFont && m.fromImage && m.fromMedia && m.fromObject && m.fromOther &&
  m.fromPing && m.fromScript && m.fromStylesheet && m.fromSubdocument &&
  m.fromWebsocket && m.fromXmlhttprequest

/-- Embedding of `FilterPart` from the upstream `filters/network.rs` module:
a simple literal pattern, a pre-compiled multi-pattern form, or no pattern. -/
inductive FilterPart where
  | simple (s : Str)
  | anyOf (ss : List Str)
  | empty
deriving DecidableEq, Repr

/-- Embedding of the fields of `NetworkFilter` (upstream `filters/network.rs`)
that the converter reads.  `optDomains` / `optNotDomains` embed
`opt_domains.is_some()` / `opt_not_domains.is_some()`: only presence of those
structured fields is consulted, their contents never are. -/
structure NetworkFilter where
  rawLine : Option Str := none
  redirect : Option Str := none
  mask : NetworkFilterMask := {}
  filter : FilterPart := .empty
  hostname : Option Str := none
  optDomains : Bool := false
  optNotDomains : Bool := false
deriving DecidableEq, Repr

/-- Embedding of the `CosmeticFilterMask` flags (upstream
`filters/cosmetic.rs`) consulted by the converter. -/
structure CosmeticFilterMask where
  unhide : Bool := false
  scriptInject : Bool := false
deriving DecidableEq, Repr

/-- Embedding of the fields of `CosmeticFilter` (upstream
`filters/cosmetic.rs`) that the converter reads. -/
structure CosmeticFilter where
  rawLine : Option Str := none
  mask : CosmeticFilterMask := {}
  selector : Str := []
  style : Option Str := none
deriving DecidableEq, Repr

/-- Embedding of `ParsedFilter` from `lists.rs`: a parsed record is either a
network filter or a cosmetic filter. -/
inductive ParsedFilter where
  | network (f : NetworkFilter)
  | cosmetic (f : CosmeticFilter)
deriving DecidableEq, Repr

/-- Embedding of `CbRuleCreationFailure`: the closed error taxonomy. -/
inductive CbRuleCreationFailure where
  | needsDebugMode
  | unlessAndIfDomainTogetherUnsupported
  | noSupportedNetworkOptions (m : NetworkFilterMask)
  | networkRedirectUnsupported
  | networkFuzzyMatchUnsupported
  | networkGenerichideUnsupported
  | networkExplicitCancelUnsupported
  | networkBadFilterUnsupported
  | networkCspUnsupported
  | optimizedRulesUnsupported
  | cosmeticEntitiesUnsupported
  | cosmeticStyleRulesNotSupported
  | scriptletInjectionsNotSupported
deriving DecidableEq, Repr

/-- Embedding of `CbRuleEquivalent`: one source rule maps to one or two
content blocking rules. -/
inductive CbRuleEquivalent where
  | singleRule (r : CbRule)
  | splitDocument (r1 r2 : CbRule)
deriving DecidableEq

/-- Result of a conversion: success, a named failure (`Result::Err`), or
`abort`, the embedding of a Rust panic (`unwrap` on `None` /
`unreachable!`), which the code treats as an upstream-contract violation. -/
inductive Conv (α : Type) where
  | ok (val : α)
  | err (e : CbRuleCreationFailure)
  | abort
deriving DecidableEq

/-- Embedding of the free function `non_empty`. -/
def non_empty (v : List Str) : Option (List Str) :=
  if v.length > 0 then some v else none

/-- The characters matched by the `SPECIAL_CHARS` regex
`([.+?^${}()|\[\]])`. -/
def isSpecialChar (c : Char) : Bool :=
  c = '.' || c = '+' || c = '?' || c = '^' || c = '$' || c = '\x7b' ||
  c = '\x7d' || c = '(' || c = ')' || c = '|' || c = '[' || c = ']'

/-- Embedding of `TRAILING_SEPARATOR.replace_all(part, "")`: the regex `\^$`
matches a single `^` at the end of the string, so the replacement drops a
trailing `^` if present. -/
def dropTrailingSeparator (l : Str) : Str :=
  if l.getLast? = some '^' then l.dropLast else l

/-- Embedding of `SPECIAL_CHARS.replace_all(s, "\$1")`: every special
character is prefixed with a backslash. -/
def escapeSpecialChars : Str → Str
  | [] => []
  | c :: rest =>
    (if isSpecialChar c then ['\\', c] else [c]) ++ escapeSpecialChars rest

/-- Embedding of `REPLACE_WILDCARDS.replace_all(s, ".*")`: every `*` becomes
`.*`. -/
def replaceWildcards : Str → Str
  | [] => []
  | c :: rest =>
    (if c = '*' then ['.', '*'] else [c]) ++ replaceWildcards rest

/-- The three-pass body transformation applied to a `FilterPart::Simple`
body: drop a trailing separator, escape special characters, then expand
wildcards (`without_trailing_separator` / `escaped_special_chars` /
`with_fixed_wildcards` in the source). -/
def transformBody (part : Str) : Str :=
  replaceWildcards (escapeSpecialChars (dropTrailingSeparator part))

/-- Stated from the spec's words, for comparison with `transformBody`: a
single pass over the body in which each special character appears
backslash-escaped exactly once, each `*` appears as `.*`, and every other
character is kept unchanged. -/
def specEscapeOnce : Str → Str
  | [] => []
  | c :: rest =>
    (if isSpecialChar c then ['\\', c]
     else if c = '*' then ['.', '*']
     else [c]) ++ specEscapeOnce rest

/-- Embedding of the `load_type` computation (lines 240-248):
`contains(THIRD_PARTY | FIRST_PARTY)` holds when both flags are set. -/
def loadTypeOf (m : NetworkFilterMask) : List CbLoadType :=
  if m.thirdParty && m.firstParty then []
  else if m.thirdParty then [.thirdParty]
  else if m.firstParty then [.firstParty]
  else []

/-- Embedding of the `url_filter` synthesis (the `match (v.filter,
v.hostname)` at lines 250-316). -/
def urlFilterOf (v : NetworkFilter) : Conv Str :=
  match v.filter, v.hostname with
  | .anyOf _, _ => .err .optimizedRulesUnsupported
  | .simple part, some hostname =>
    let with_fixed_wildcards := transformBody part
    let uf := strL "^[^:]+:(//)?([^/]+\\.)?" ++ escapeSpecialChars hostname
    let uf := if v.mask.isHostnameRegex then uf ++ strL ".*" else uf
    let uf := uf ++ with_fixed_wildcards
    let uf := if v.mask.isRightAnchor then uf ++ strL "$" else uf
    .ok uf
  | .simple part, none =>
    let with_fixed_wildcards := transformBody part
    if v.mask.isLeftAnchor then
      let uf := strL "^" ++ with_fixed_wildcards
      .ok (if v.mask.isRightAnchor then uf ++ strL "$" else uf)
    else
      let scheme_part :=
        if v.mask.fromHttp && v.mask.fromHttps then some (strL "")
        else if v.mask.fromHttp then some (strL "^http://.*")
        else if v.mask.fromHttps then some (strL "^https://.*")
        else if v.mask.fromWebsocket then some (strL "^wss?://.*")
        else none
      match scheme_part with
      | none => .abort
      | some sp =>
        let uf := sp ++ with_fixed_wildcards
        .ok (if v.mask.isRightAnchor then uf ++ strL "$" else uf)
  | .empty, some hostname =>
    .ok (strL "^[^:]+:(//)?([^/]+\\.)?" ++ escapeSpecialChars hostname)
  | .empty, none =>
    if v.mask.fromHttp && v.mask.fromHttps then .ok (strL "^https?://")
    else if v.mask.fromHttp then .ok (strL "^http://")
    else if v.mask.fromHttps then .ok (strL "^https://")
    else if v.mask.fromWebsocket then .ok (strL "^wss?://")
    else .abort

/-- Drop everything up to and including the first occurrence of `c`,
embedding `&s[s.find(c).unwrap() + 1..]`; `none` when `c` does not occur
(where the `unwrap` panics). -/
def afterChar (c : Char) : Str → Option Str
  | [] => none
  | x :: rest => if x = c then some rest else afterChar c rest

/-- Drop everything up to and including the first occurrence of the
substring `pat`, embedding `&s[s.find(pat).unwrap() + pat.len()..]`. -/
def afterSubstring (pat : Str) : Str → Option Str
  | [] => if pat = [] then some [] else none
  | x :: rest =>
    if pat.isPrefixOf (x :: rest) then some ((x :: rest).drop pat.length)
    else afterSubstring pat rest

/-- Embedding of the domain-list extraction (lines 318-342): when the record
carries `opt_domains` or `opt_not_domains`, re-parse the `domain=` option
value from the raw line, split it on `|`, and send each entry starting with
`~` (stripped of the `~`) to `unless_domain` and every other entry to
`if_domain`, each prefixed with `*`.  The two `unwrap`s panic (`abort`) when
the raw line has no `$` or no `domain=`. -/
def extractNetworkDomains (v : NetworkFilter) (rawLine : Str) :
    Conv (Option (List Str) × Option (List Str)) :=
  if v.optDomains || v.optNotDomains then
    match afterChar '$' rawLine with
    | none => .abort
    | some opts =>
      match afterSubstring (strL "domain=") opts with
      | none => .abort
      | some domains_start =>
        let domains := (domains_start.takeWhile (· ≠ ',')).splitOn '|'
        let if_domain :=
          (domains.filter (fun d => d.head? ≠ some '~')).map (fun d => '*' :: d)
        let unless_domain :=
          (domains.filter (fun d => d.head? = some '~')).map (fun d => '*' :: d.tail)
        .ok (non_empty if_domain, non_empty unless_domain)
  else .ok (none, none)

/-- Embedding of the `push_if_flag!` invocations with a target type (lines
372-382): the set of supported resource types mapped from the mask. -/
def mappedResourceTypes (m : NetworkFilterMask) : Finset CbResourceType :=
  let types : Finset CbResourceType := ∅
  let types := if m.fromImage then insert .image types else types
  let types := if m.fromMedia then insert .media types else types
  let types := if m.fromScript then insert .script types else types
  let types := if m.fromStylesheet then insert .styleSheet types else types
  let types := if m.fromSubdocument then insert .document types else types
  let types := if m.fromXmlhttprequest then insert .raw types else types
  let types := if m.fromFont then insert .font types else types
  types

/-- Embedding of the `push_if_flag!` invocations without a target type
(lines 374-380): the accumulated `unsupported_flags` mask. -/
def unsupportedFlagsOf (m : NetworkFilterMask) : NetworkFilterMask :=
  let u := NetworkFilterMask.empty
  let u := if m.fromObject then { u with fromObject := true } else u
  let u := if m.fromOther then { u with fromOther := true } else u
  let u := if m.fromPing then { u with fromPing := true } else u
  let u := if m.fromWebsocket then { u with fromWebsocket := true } else u
  u

/-- Embedding of the `resource_type` computation (lines 354-390). -/
def computeResourceTypes (m : NetworkFilterMask) :
    Conv (Option (Finset CbResourceType)) :=
  if m.from_any then .ok none
  else
    let types := mappedResourceTypes m
    let unsupported_flags := unsupportedFlagsOf m
    if unsupported_flags ≠ NetworkFilterMask.empty ∧ types = ∅ then
      .err (.noSupportedNetworkOptions unsupported_flags)
    else .ok (some types)

/-- Embedding of `TryFrom<NetworkFilter> for CbRuleEquivalent` up to and
including the construction of `single_rule` (lines 216-410), that is, the
whole conversion except the final document-split step. -/
def networkCandidate (v : NetworkFilter) : Conv CbRule :=
  match v.rawLine with
  | none => .err .needsDebugMode
  | some rawLine =>
    if v.redirect.isSome then .err .networkRedirectUnsupported
    else if v.mask.fuzzyMatch then .err .networkFuzzyMatchUnsupported
    else if v.mask.genericHide then .err .networkGenerichideUnsupported
    else if v.mask.explicitCancel then .err .networkExplicitCancelUnsupported
    else if v.mask.badFilter then .err .networkBadFilterUnsupported
    else if v.mask.isCsp then .err .networkCspUnsupported
    else
      let load_type := loadTypeOf v.mask
      match urlFilterOf v with
      | .err e => .err e
      | .abort => .abort
      | .ok url_filter =>
        match extractNetworkDomains v rawLine with
        | .err e => .err e
        | .abort => .abort
        | .ok (if_domain, unless_domain) =>
          if if_domain.isSome ∧ unless_domain.isSome then
            .err .unlessAndIfDomainTogetherUnsupported
          else
            let blocking_type :=
              if v.mask.isException then CbType.ignorePreviousRules
              else CbType.block
            match computeResourceTypes v.mask with
            | .err e => .err e
            | .abort => .abort
            | .ok resource_type =>
              let url_filter_is_case_sensitive :=
                if v.mask.matchCase then some true else none
              .ok {
                action := { typ := blocking_type, selector := none },
                trigger := {
                  url_filter := url_filter,
                  load_type := load_type,
                  if_domain := if_domain,
                  unless_domain := unless_domain,
                  resource_type := resource_type,
                  url_filter_is_case_sensitive := url_filter_is_case_sensitive } }

/-- The document-split condition (line 413): a resource-type set with more
than one entry, containing `Document`, with an empty load-type list. -/
def shouldSplitDocument (r : CbRule) : Bool :=
  match r.trigger.resource_type with
  | some resource_types =>
    decide (1 < resource_types.card) &&
    decide (CbResourceType.document ∈ resource_types) &&
    decide (r.trigger.load_type = [])
  | none => false

/-- Embedding of the document-split step (lines 412-439): split the candidate
rule into a non-document rule and a third-party document rule when the split
condition holds, otherwise keep the single rule. -/
def splitStep (single_rule : CbRule) : CbRuleEquivalent :=
  match single_rule.trigger.resource_type with
  | some resource_types =>
    if 1 < resource_types.card ∧ CbResourceType.document ∈ resource_types ∧
        single_rule.trigger.load_type = [] then
      let non_doc_rule : CbRule :=
        { single_rule with trigger :=
          { single_rule.trigger with
            resource_type := some (resource_types.erase .document) } }
      let just_doc_rule : CbRule :=
        { single_rule with trigger :=
          { single_rule.trigger with
            resource_type := some {CbResourceType.document},
            load_type := [.thirdParty] } }
      .splitDocument non_doc_rule just_doc_rule
    else .singleRule single_rule
  | none => .singleRule single_rule

/-- Embedding of `TryFrom<NetworkFilter> for CbRuleEquivalent`
(lines 213-445). -/
def tryFromNetworkFilter (v : NetworkFilter) : Conv CbRuleEquivalent :=
  match networkCandidate v with
  | .ok single_rule => .ok (splitStep single_rule)
  | .err e => .err e
  | .abort => .abort

/-- Embedding of `CosmeticFilterLocationType` from the upstream
`filters/cosmetic.rs` module. -/
inductive CosmeticFilterLocationType where
  | entity
  | notEntity
  | hostname
  | notHostname
deriving DecidableEq, Repr

/-- Modelled from the spec: `CosmeticFilter::locations_before_sharp`, which
lives in the upstream `filters/cosmetic.rs` module.  Per the spec it scans
every comma-separated location token before the `#` separator, classifying
each as entity-include / entity-exclude / hostname-include /
hostname-exclude: a leading `~` marks the negated variants and is stripped
from the yielded location, and a wildcard-style domain group such as
`google.*` (a token ending in `.*`) is an entity rather than a literal
hostname, yielded without that suffix.  Empty tokens (such as when the rule
has no location prefix at all) yield nothing. -/
def locationsBeforeSharp (rawLine : Str) :
    List (CosmeticFilterLocationType × Str) :=
  let beforeSharp := rawLine.takeWhile (· ≠ '#')
  (beforeSharp.splitOn ',').filterMap (fun tok =>
    if tok = [] then none
    else if tok.head? = some '~' then
      if (strL ".*").isSuffixOf tok.tail then
        some (.notEntity, tok.tail.dropLast.dropLast)
      else some (.notHostname, tok.tail)
    else
      if (strL ".*").isSuffixOf tok then some (.entity, tok.dropLast.dropLast)
      else some (.hostname, tok))

/-- The `hostnames_vec` accumulated by the `for_each` over
`locations_before_sharp` (lines 461-475): the hostname-include locations, in
order. -/
def cosmeticHostnames (rawLine : Str) : List Str :=
  ((locationsBeforeSharp rawLine).filter
    (fun l => l.1 = CosmeticFilterLocationType.hostname)).map (·.2)

/-- The `not_hostnames_vec` accumulated by the same `for_each`: the
hostname-exclude locations, in order. -/
def cosmeticNotHostnames (rawLine : Str) : List Str :=
  ((locationsBeforeSharp rawLine).filter
    (fun l => l.1 = CosmeticFilterLocationType.notHostname)).map (·.2)

/-- The `any_entities` flag set by the same `for_each`: whether any location
is an entity or not-entity. -/
def cosmeticAnyEntities (rawLine : Str) : Bool :=
  (locationsBeforeSharp rawLine).any (fun l =>
    l.1 = CosmeticFilterLocationType.entity ||
    l.1 = CosmeticFilterLocationType.notEntity)

/-- Embedding of `TryFrom<CosmeticFilter> for CbRule` (lines 447-507).
The `raw_line.find('#').unwrap()` panics (`abort`) when the raw line has no
`#` character. -/
def tryFromCosmeticFilter (v : CosmeticFilter) : Conv CbRule :=
  if v.style.isSome then .err .cosmeticStyleRulesNotSupported
  else if v.mask.scriptInject then .err .scriptletInjectionsNotSupported
  else
    match v.rawLine with
    | none => .err .needsDebugMode
    | some rawLine =>
      if ¬ rawLine.contains '#' then .abort
      else
        let hostnames_vec := cosmeticHostnames rawLine
        let not_hostnames_vec := cosmeticNotHostnames rawLine
        if cosmeticAnyEntities rawLine then .err .cosmeticEntitiesUnsupported
        else
          let hostnames_vec := non_empty hostnames_vec
          let not_hostnames_vec := non_empty not_hostnames_vec
          if hostnames_vec.isSome ∧ not_hostnames_vec.isSome then
            .err .unlessAndIfDomainTogetherUnsupported
          else
            let dom :=
              if v.mask.unhide then (hostnames_vec, not_hostnames_vec)
              else (not_hostnames_vec, hostnames_vec)
            .ok {
              action := { typ := .cssDisplayNone, selector := some v.selector },
              trigger := {
                url_filter := strL ".*",
                if_domain := dom.2,
                unless_domain := dom.1 } }

/-- Embedding of `TryFrom<ParsedFilter> for CbRuleEquivalent`
(lines 153-162): the dispatch entry point. -/
def tryFromParsedFilter : ParsedFilter → Conv CbRuleEquivalent
  | .network f => tryFromNetworkFilter f
  | .cosmetic f =>
    match tryFromCosmeticFilter f with
    | .ok r => .ok (.singleRule r)
    | .err e => .err e
    | .abort => .abort

/-- Embedding of `CbRuleEquivalentIterator`: a two-slot array of optional
rules plus a cursor. -/
structure CbRuleEquivalentIterator where
  rules : Option CbRule × Option CbRule
  index : Nat
deriving DecidableEq

/-- Embedding of `IntoIterator for CbRuleEquivalent` (lines 183-193). -/
def CbRuleEquivalent.into_iter : CbRuleEquivalent → CbRuleEquivalentIterator
  | .singleRule r => { rules := (some r, none), index := 0 }
  | .splitDocument r1 r2 => { rules := (some r1, some r2), index := 0 }

/-- Embedding of `Iterator::next` for `CbRuleEquivalentIterator` (lines
203-210): yield the element at the cursor, taking it out of its slot, and
advance; yield `none` past the end. -/
def CbRuleEquivalentIterator.next (it : CbRuleEquivalentIterator) :
    Option CbRule × CbRuleEquivalentIterator :=
  if it.index ≥ 2 then (none, it)
  else if it.index = 0 then
    (it.rules.1, { rules := (none, it.rules.2), index := it.index + 1 })
  else
    (it.rules.2, { rules := (it.rules.1, none), index := it.index + 1 })

/-- Drain an iterator into a list by calling `next` until it yields `none`,
with fuel (three calls suffice for the two-slot iterator). -/
def drainAux : Nat → CbRuleEquivalentIterator → List CbRule
  | 0, _ => []
  | fuel + 1, it =>
    match it.next with
    | (some r, it') => r :: drainAux fuel it'
    | (none, _) => []

/-- The sequence of rules yielded by iterating a fresh conversion outcome. -/
def CbRuleEquivalent.to_list (e : CbRuleEquivalent) : List CbRule :=
  drainAux 3 e.into_iter

/-- The one or two rules held by a conversion outcome, in order: stated from
the spec's words ("the first-produced rule, then the second if present"),
for comparison with the iterator's behavior. -/
def CbRuleEquivalent.rules : CbRuleEquivalent → List CbRule
  | .singleRule r => [r]
  | .splitDocument r1 r2 => [r1, r2]

/-! Concrete records used to instantiate the theorems below. -/

/-- The content-type flags a freshly parsed record carries by default
(`FROM_ANY`): all eleven set. -/
def allContentFlags : NetworkFilterMask :=
  { fromImage := true, fromMedia := true, fromObject := true,
    fromOther := true, fromPing := true, fromScript := true,
    fromStylesheet := true, fromSubdocument := true, fromWebsocket := true,
    fromXmlhttprequest := true, fromFont := true }

/-- A network record mixing the image and document resource types with no
party restriction: the document-split case. -/
def exSplitFilter : NetworkFilter :=
  { rawLine := some (strL "||a^$image,subdocument"),
    mask := { fromImage := true, fromSubdocument := true },
    filter := .empty,
    hostname := some (strL "a") }

/-- The resource-type set computed for `exSplitFilter`. -/
def exSplitTypes : Finset CbResourceType :=
  {CbResourceType.document, CbResourceType.image}

/-- The candidate single rule assembled for `exSplitFilter`. -/
def exSplitCandidate : CbRule :=
  { action := { typ := .block, selector := none },
    trigger := { url_filter := strL "^[^:]+:(//)?([^/]+\\.)?a",
                 resource_type := some exSplitTypes } }

/-- A network record whose `domain=` option mixes included and excluded
domains. -/
def exBothDomainsFilter : NetworkFilter :=
  { rawLine := some (strL "||h^$domain=a.com|~b.com"),
    mask := allContentFlags,
    filter := .empty,
    hostname := some (strL "h"),
    optDomains := true,
    optNotDomains := true }

/-- A network record with a wildcard and special characters in its body. -/
def exEscapeFilter : NetworkFilter :=
  { rawLine := some (strL "&prvtof=*&poru="),
    mask := { fromHttp := true, fromHttps := true },
    filter := .simple (strL "&prvtof=*&poru=") }

/-- A network record whose simple body is a lone trailing separator: the
synthesized url-filter is the empty string. -/
def exEmptyUrlFilter : NetworkFilter :=
  { rawLine := some (strL "^"),
    mask := { fromHttp := true, fromHttps := true },
    filter := .simple (strL "^") }

/-- The rule produced for `exEmptyUrlFilter`: its url-filter is empty. -/
def exEmptyUrlRule : CbRule :=
  { action := { typ := .block, selector := none },
    trigger := { url_filter := [], resource_type := some ∅ } }

/-- An unhide cosmetic record scoped to the single hostname `a.com`. -/
def exUnhideFilter : CosmeticFilter :=
  { rawLine := some (strL "a.com#@##sel"),
    mask := { unhide := true },
    selector := strL "#sel" }

/-- The rule produced for `exUnhideFilter`. -/
def exUnhideRule : CbRule :=
  { action := { typ := .cssDisplayNone, selector := some (strL "#sel") },
    trigger := { url_filter := strL ".*",
                 unless_domain := some [strL "a.com"] } }

/-- A hostname record carrying the `IS_HOSTNAME_REGEX` flag. -/
def exHostnameRegexFilter : NetworkFilter :=
  { rawLine := some (strL "x"),
    mask := { isHostnameRegex := true },
    filter := .simple (strL "p*"),
    hostname := some (strL "h.co") }

/-- A network record whose `domain=` option holds the single hostname
`a.com`, for comparison with the cosmetic converter's treatment of the same
token. -/
def exStarFilter : NetworkFilter :=
  { rawLine := some (strL "x$domain=a.com"),
    mask := allContentFlags,
    filter := .empty,
    hostname := some (strL "h"),
    optDomains := true }

/-- A mask whose only resource-type flag is the unsupported `object`. -/
def exUnsupportedOnlyMask : NetworkFilterMask := { fromObject := true }

/-- A mask mixing a supported (`image`) and an unsupported (`ping`)
resource-type flag. -/
def exMixedMask : NetworkFilterMask := { fromImage := true, fromPing := true }

/-! Helper lemmas about the escaping passes. -/

theorem isSpecialChar_ne_star (c : Char) (h : isSpecialChar c = true) :
    c ≠ '*' := by
  intro hc
  subst hc
  exact absurd h (by decide)

theorem replaceWildcards_append (a b : Str) :
    replaceWildcards (a ++ b) = replaceWildcards a ++ replaceWildcards b := by
  induction a with
  | nil => simp [replaceWildcards]
  | cons c rest ih => simp [replaceWildcards, ih]

theorem replaceWildcards_escape (l : Str) :
    replaceWildcards (escapeSpecialChars l) = specEscapeOnce l := by
  induction l with
  | nil => rfl
  | cons c rest ih =>
    by_cases hs : isSpecialChar c = true
    · have hc : c ≠ '*' := isSpecialChar_ne_star c hs
      simp [escapeSpecialChars, specEscapeOnce, hs, replaceWildcards_append,
        replaceWildcards, hc, ih]
    · by_cases hw : c = '*'
      · subst hw
        simp [escapeSpecialChars, specEscapeOnce, hs, replaceWildcards_append,
          replaceWildcards, ih]
      · simp [escapeSpecialChars, specEscapeOnce, hs, hw,
          replaceWildcards_append, replaceWildcards, ih]

theorem specEscapeOnce_eq_nil_iff (l : Str) :
    specEscapeOnce l = [] ↔ l = [] := by
  cases l with
  | nil => simp [specEscapeOnce]
  | cons c rest =>
    simp only [specEscapeOnce]
    split <;> (try split) <;> simp

/-- C3: for a network record with a simple literal filter body the
synthesized url-filter applies, in order, the trailing-separator drop, the
special-character escaping, and the wildcard expansion; the composition is a
single pass in which each special character of the (trailing-separator
stripped) body appears backslash-escaped exactly once, each `*` appears as
`.*`, and every other character is untouched. -/
theorem C3_round_trip_escaping :
    (∀ part : Str,
      transformBody part = specEscapeOnce (dropTrailingSeparator part)) ∧
    (∀ (v : NetworkFilter) (part : Str),
      v.filter = .simple part → v.hostname = none →
      v.mask.isLeftAnchor = false → v.mask.isRightAnchor = false →
      v.mask.fromHttp = true → v.mask.fromHttps = true →
      urlFilterOf v = .ok (specEscapeOnce (dropTrailingSeparator part))) := by
  constructor
  · intro part
    unfold transformBody
    exact replaceWildcards_escape _
  · intro v part hf hh hla hra hhttp hhttps
    unfold urlFilterOf
    rw [hf, hh]
    simp [hla, hra, hhttp, hhttps, transformBody, replaceWildcards_escape,
      show strL "" = [] from rfl]

/-- Witness for C3 at `exEscapeFilter` (body `&prvtof=*&poru=`). -/
theorem C3_round_trip_escaping_witness :
    urlFilterOf exEscapeFilter =
      .ok (specEscapeOnce (dropTrailingSeparator (strL "&prvtof=*&poru="))) :=
  C3_round_trip_escaping.2 exEscapeFilter (strL "&prvtof=*&poru=")
    rfl rfl rfl rfl rfl rfl

/-- When the split condition fails, the split step keeps the single rule. -/
theorem splitStep_of_not_split (r : CbRule)
    (h : shouldSplitDocument r = false) : splitStep r = .singleRule r := by
  unfold splitStep
  cases hrt : r.trigger.resource_type with
  | none => rfl
  | some s =>
    have hneg : ¬(1 < s.card ∧ CbResourceType.document ∈ s ∧
        r.trigger.load_type = []) := by
      intro hcond
      obtain ⟨h1, h2, h3⟩ := hcond
      simp [shouldSplitDocument, hrt, h1, h2, h3] at h
    dsimp only
    rw [if_neg hneg]

/-- C1: if the candidate single rule's resource-type set has at least two
entries including `document` and its load-type list is empty, the conversion
outcome is `SplitDocument` of a rule identical to the candidate except that
`document` is erased from its resource types, and a rule identical to the
candidate except that its resource types are exactly `{document}` and its
load type exactly `[third-party]`; otherwise the outcome is `SingleRule` of
the unchanged candidate. -/
theorem C1_split_completeness :
    (∀ (v : NetworkFilter) (r : CbRule) (s : Finset CbResourceType),
      networkCandidate v = .ok r →
      r.trigger.resource_type = some s →
      1 < s.card → CbResourceType.document ∈ s →
      r.trigger.load_type = [] →
      tryFromNetworkFilter v = .ok (.splitDocument
        { r with trigger :=
          { r.trigger with resource_type := some (s.erase .document) } }
        { r with trigger :=
          { r.trigger with
            resource_type := some {CbResourceType.document},
            load_type := [.thirdParty] } })) ∧
    (∀ (v : NetworkFilter) (r : CbRule),
      networkCandidate v = .ok r →
      shouldSplitDocument r = false →
      tryFromNetworkFilter v = .ok (.singleRule r)) := by
  constructor
  · intro v r s hc hrt hcard hmem hload
    unfold tryFromNetworkFilter
    rw [hc]
    dsimp only
    unfold splitStep
    rw [hrt]
    dsimp only
    rw [if_pos ⟨hcard, hmem, hload⟩]
  · intro v r hc hsplit
    unfold tryFromNetworkFilter
    rw [hc]
    dsimp only
    rw [splitStep_of_not_split r hsplit]

/-- Witness for C1 at `exSplitFilter` (resource types image + document, no
load type). -/
theorem C1_split_completeness_witness :
    tryFromNetworkFilter exSplitFilter = .ok (.splitDocument
      { exSplitCandidate with trigger :=
        { exSplitCandidate.trigger with
          resource_type := some (exSplitTypes.erase .document) } }
      { exSplitCandidate with trigger :=
        { exSplitCandidate.trigger with
          resource_type := some {CbResourceType.document},
          load_type := [.thirdParty] } }) :=
  C1_split_completeness.1 exSplitFilter exSplitCandidate exSplitTypes
    rfl rfl (by decide) (by decide) rfl

/-- C8: conversion is deterministic — two successful conversions of the same
source record give equal outcomes with identical iteration sequences — and
iterating a fresh outcome yields its rules in fixed order: the single rule,
or the first split rule followed by the second. -/
theorem C8_determinism :
    (∀ (pf : ParsedFilter) (e1 e2 : CbRuleEquivalent),
      tryFromParsedFilter pf = .ok e1 → tryFromParsedFilter pf = .ok e2 →
      e1 = e2 ∧ e1.to_list = e2.to_list) ∧
    (∀ r : CbRule, (CbRuleEquivalent.singleRule r).to_list = [r]) ∧
    (∀ r1 r2 : CbRule,
      (CbRuleEquivalent.splitDocument r1 r2).to_list = [r1, r2]) ∧
    (∀ e : CbRuleEquivalent, e.to_list = e.rules) := by
  refine ⟨?_, ?_, ?_, ?_⟩
  · intro pf e1 e2 h1 h2
    rw [h1] at h2
    cases h2
    exact ⟨rfl, rfl⟩
  · intro r
    rfl
  · intro r1 r2
    rfl
  · intro e
    cases e <;> rfl

/-- Witness for C8: the cosmetic record `exUnhideFilter` converts twice to
the same single-rule outcome with the same iteration sequence. -/
theorem C8_determinism_witness :
    CbRuleEquivalent.singleRule exUnhideRule =
      CbRuleEquivalent.singleRule exUnhideRule ∧
    (CbRuleEquivalent.singleRule exUnhideRule).to_list =
      (CbRuleEquivalent.singleRule exUnhideRule).to_list :=
  C8_determinism.1 (.cosmetic exUnhideFilter)
    (.singleRule exUnhideRule) (.singleRule exUnhideRule) rfl rfl

/-- C9: for a network record with a hostname and a simple literal body, the
synthesized url-filter places an extra `.*` between the escaped hostname and
the transformed body exactly when the hostname-is-regex flag is set;
otherwise the transformed body directly follows the escaped hostname. -/
theorem C9_hostname_regex_gap :
    ∀ (v : NetworkFilter) (part h : Str),
      v.filter = .simple part → v.hostname = some h →
      ((v.mask.isHostnameRegex = true →
        urlFilterOf v = .ok (strL "^[^:]+:(//)?([^/]+\\.)?" ++
          escapeSpecialChars h ++ strL ".*" ++ transformBody part ++
          (if v.mask.isRightAnchor = true then strL "$" else []))) ∧
       (v.mask.isHostnameRegex = false →
        urlFilterOf v = .ok (strL "^[^:]+:(//)?([^/]+\\.)?" ++
          escapeSpecialChars h ++ transformBody part ++
          (if v.mask.isRightAnchor = true then strL "$" else [])))) := by
  intro v part h hf hh
  constructor <;> intro hreg <;>
    · unfold urlFilterOf
      rw [hf, hh]
      cases hra : v.mask.isRightAnchor <;> simp [hreg, hra]

/-- Witness for C9 at `exHostnameRegexFilter` (flag set, hostname `h.co`,
body `p*`). -/
theorem C9_hostname_regex_gap_witness :
    urlFilterOf exHostnameRegexFilter = .ok (strL "^[^:]+:(//)?([^/]+\\.)?" ++
      escapeSpecialChars (strL "h.co") ++ strL ".*" ++
      transformBody (strL "p*") ++
      (if exHostnameRegexFilter.mask.isRightAnchor = true
        then strL "$" else [])) :=
  (C9_hostname_regex_gap exHostnameRegexFilter (strL "p*") (strL "h.co")
    rfl rfl).1 rfl

/-- `non_empty` returns the original list when it returns anything. -/
theorem non_empty_eq_some {x : List Str} {l : List Str}
    (h : non_empty x = some l) : l = x := by
  unfold non_empty at h
  split at h
  · exact (Option.some.inj h).symm
  · exact Option.noConfusion h

/-- C10: every domain-list entry produced by the network converter's
extraction starts with `*`, while every hostname entry produced by the
cosmetic converter is one of the raw line's comma-separated location tokens
verbatim; on the same source token `a.com` the two converters therefore emit
different entries (`*a.com` versus `a.com`). -/
theorem C10_domain_entry_star :
    (∀ (v : NetworkFilter) (rawLine : Str) (p q : Option (List Str)),
      extractNetworkDomains v rawLine = .ok (p, q) →
      (∀ l, p = some l → ∀ e ∈ l, e.head? = some '*') ∧
      (∀ l, q = some l → ∀ e ∈ l, e.head? = some '*')) ∧
    (∀ (rawLine : Str), ∀ e ∈ cosmeticHostnames rawLine,
      e ∈ (rawLine.takeWhile (· ≠ '#')).splitOn ',') ∧
    (extractNetworkDomains exStarFilter (strL "x$domain=a.com") =
        .ok (some [strL "*a.com"], none) ∧
      cosmeticHostnames (strL "a.com#@##sel") = [strL "a.com"] ∧
      strL "*a.com" ≠ strL "a.com") := by
  refine ⟨?_, ?_, by decide, by decide, by decide⟩
  · intro v rawLine p q hext
    unfold extractNetworkDomains at hext
    split at hext
    · split at hext
      · exact Conv.noConfusion hext
      · split at hext
        · exact Conv.noConfusion hext
        · rw [Conv.ok.injEq, Prod.mk.injEq] at hext
          obtain ⟨hp, hq⟩ := hext
          constructor
          · intro l hl e he
            rw [← hp] at hl
            rw [non_empty_eq_some hl] at he
            simp only [List.mem_map] at he
            obtain ⟨d, -, hd⟩ := he
            rw [← hd]
            rfl
          · intro l hl e he
            rw [← hq] at hl
            rw [non_empty_eq_some hl] at he
            simp only [List.mem_map] at he
            obtain ⟨d, -, hd⟩ := he
            rw [← hd]
            rfl
    · rw [Conv.ok.injEq, Prod.mk.injEq] at hext
      obtain ⟨hp, hq⟩ := hext
      constructor
      · intro l hl
        rw [← hp] at hl
        exact Option.noConfusion hl
      · intro l hl
        rw [← hq] at hl
        exact Option.noConfusion hl
  · intro rawLine e he
    unfold cosmeticHostnames at he
    simp only [List.mem_map, List.mem_filter, decide_eq_true_eq] at he
    obtain ⟨pair, ⟨hmem, hty⟩, hsnd⟩ := he
    unfold locationsBeforeSharp at hmem
    simp only [List.mem_filterMap] at hmem
    obtain ⟨tok, htok, hf⟩ := hmem
    split at hf
    · exact Option.noConfusion hf
    · split at hf
      · split at hf <;>
          · cases Option.some.inj hf
            exact absurd hty (by simp)
      · split at hf
        · cases Option.some.inj hf
          exact absurd hty (by simp)
        · cases Option.some.inj hf
          rw [← hsnd]
          exact htok

/-- Witness for C10: the network-extracted entry for the token `a.com`
starts with `*`. -/
theorem C10_domain_entry_star_witness :
    (strL "*a.com").head? = some '*' :=
  (C10_domain_entry_star.1 exStarFilter (strL "x$domain=a.com")
    (some [strL "*a.com"]) none (by decide)).1 [strL "*a.com"] rfl
    (strL "*a.com") (by simp)

/-- Full characterization of a successful cosmetic conversion: the raw line
is present, the domain lists do not conflict, and the produced rule is a
css-display-none rule over the unchanged selector with the match-any url
filter and the polarity-dependent domain lists. -/
theorem tryFromCosmeticFilter_ok_spec (v : CosmeticFilter) (r : CbRule)
    (h : tryFromCosmeticFilter v = .ok r) :
    ∃ rawLine, v.rawLine = some rawLine ∧
      r = { action := { typ := .cssDisplayNone, selector := some v.selector },
            trigger :=
              { url_filter := strL ".*",
                if_domain :=
                  if v.mask.unhide = true
                    then non_empty (cosmeticNotHostnames rawLine)
                    else non_empty (cosmeticHostnames rawLine),
                unless_domain :=
                  if v.mask.unhide = true
                    then non_empty (cosmeticHostnames rawLine)
                    else non_empty (cosmeticNotHostnames rawLine) } } ∧
      ¬((non_empty (cosmeticHostnames rawLine)).isSome = true ∧
        (non_empty (cosmeticNotHostnames rawLine)).isSome = true) := by
  unfold tryFromCosmeticFilter at h
  split at h
  · exact Conv.noConfusion h
  split at h
  · exact Conv.noConfusion h
  split at h
  · exact Conv.noConfusion h
  rename_i rawLine heq
  split at h
  · exact Conv.noConfusion h
  dsimp only at h
  split at h
  · exact Conv.noConfusion h
  split at h
  · exact Conv.noConfusion h
  rename_i hboth
  cases h
  refine ⟨rawLine, heq, ?_, hboth⟩
  cases hu : v.mask.unhide <;> simp [hu]

/-- C5: for a cosmetic record that converts successfully, the extracted
hostname-include list lands in `unless_domain` and the hostname-exclude list
in `if_domain` when the unhide flag is set, and the other way around when it
is not. -/
theorem C5_cosmetic_polarity :
    ∀ (v : CosmeticFilter) (rawLine : Str) (r : CbRule),
      v.rawLine = some rawLine →
      tryFromCosmeticFilter v = .ok r →
      ((v.mask.unhide = true →
        r.trigger.unless_domain = non_empty (cosmeticHostnames rawLine) ∧
        r.trigger.if_domain = non_empty (cosmeticNotHostnames rawLine)) ∧
       (v.mask.unhide = false →
        r.trigger.if_domain = non_empty (cosmeticHostnames rawLine) ∧
        r.trigger.unless_domain = non_empty (cosmeticNotHostnames rawLine))) := by
  intro v rawLine r hraw hok
  obtain ⟨raw2, hraw2, hr, -⟩ := tryFromCosmeticFilter_ok_spec v r hok
  rw [hraw, Option.some.injEq] at hraw2
  subst hraw2
  subst hr
  constructor <;> intro hu <;> simp [hu]

/-- Witness for C5 at the unhide record `exUnhideFilter` with
hostname-includes `{a.com}` and no excludes: `unless_domain` receives the
include list. -/
theorem C5_cosmetic_polarity_witness :
    (exUnhideRule.trigger.unless_domain =
      non_empty (cosmeticHostnames (strL "a.com#@##sel")) ∧
     exUnhideRule.trigger.if_domain =
      non_empty (cosmeticNotHostnames (strL "a.com#@##sel"))) ∧
    non_empty (cosmeticHostnames (strL "a.com#@##sel")) =
      some [strL "a.com"] ∧
    non_empty (cosmeticNotHostnames (strL "a.com#@##sel")) = none :=
  ⟨(C5_cosmetic_polarity exUnhideFilter (strL "a.com#@##sel") exUnhideRule
      rfl (by decide)).1 rfl, by decide, by decide⟩

/-- C7: a successful cosmetic conversion yields exactly one rule: action
kind css-display-none, the record's selector unchanged, trigger url-filter
exactly `.*`; the dispatch entry point wraps it in the single-rule outcome. -/
theorem C7_cosmetic_outcome :
    ∀ (v : CosmeticFilter) (r : CbRule),
      tryFromCosmeticFilter v = .ok r →
      r.action.typ = .cssDisplayNone ∧
      r.action.selector = some v.selector ∧
      r.trigger.url_filter = strL ".*" ∧
      tryFromParsedFilter (.cosmetic v) = .ok (.singleRule r) := by
  intro v r hok
  obtain ⟨raw, -, hr, -⟩ := tryFromCosmeticFilter_ok_spec v r hok
  subst hr
  refine ⟨rfl, rfl, rfl, ?_⟩
  unfold tryFromParsedFilter
  dsimp only
  rw [hok]

/-- Witness for C7 at `exUnhideFilter`. -/
theorem C7_cosmetic_outcome_witness :
    exUnhideRule.action.typ = .cssDisplayNone ∧
    exUnhideRule.action.selector = some exUnhideFilter.selector ∧
    exUnhideRule.trigger.url_filter = strL ".*" ∧
    tryFromParsedFilter (.cosmetic exUnhideFilter) =
      .ok (.singleRule exUnhideRule) :=
  C7_cosmetic_outcome exUnhideFilter exUnhideRule (by decide)

/-- A successful candidate never carries both domain lists: the converter
checks this before assembling the rule. -/
theorem networkCandidate_not_both (v : NetworkFilter) (r : CbRule)
    (h : networkCandidate v = .ok r) :
    ¬(r.trigger.if_domain.isSome = true ∧
      r.trigger.unless_domain.isSome = true) := by
  unfold networkCandidate at h
  split at h
  · exact Conv.noConfusion h
  split at h
  · exact Conv.noConfusion h
  split at h
  · exact Conv.noConfusion h
  split at h
  · exact Conv.noConfusion h
  split at h
  · exact Conv.noConfusion h
  split at h
  · exact Conv.noConfusion h
  split at h
  · exact Conv.noConfusion h
  dsimp only at h
  split at h
  · exact Conv.noConfusion h
  · exact Conv.noConfusion h
  split at h
  · exact Conv.noConfusion h
  · exact Conv.noConfusion h
  split at h
  · exact Conv.noConfusion h
  rename_i hboth
  split at h
  · exact Conv.noConfusion h
  · exact Conv.noConfusion h
  cases h
  exact hboth

/-- Both rules produced by the split step share the candidate's domain
lists and url-filter. -/
theorem mem_splitStep_rules (r r' : CbRule)
    (h : r' ∈ (splitStep r).rules) :
    r'.trigger.if_domain = r.trigger.if_domain ∧
    r'.trigger.unless_domain = r.trigger.unless_domain ∧
    r'.trigger.url_filter = r.trigger.url_filter := by
  unfold splitStep at h
  split at h
  · split at h
    · simp only [CbRuleEquivalent.rules, List.mem_cons,
        List.not_mem_nil, or_false] at h
      rcases h with h | h <;> subst h <;> exact ⟨rfl, rfl, rfl⟩
    · simp only [CbRuleEquivalent.rules, List.mem_cons,
        List.not_mem_nil, or_false] at h
      subst h
      exact ⟨rfl, rfl, rfl⟩
  · simp only [CbRuleEquivalent.rules, List.mem_cons,
      List.not_mem_nil, or_false] at h
    subst h
    exact ⟨rfl, rfl, rfl⟩


/-- C2: no produced rule ever carries both `if_domain` and `unless_domain`;
and a record whose extraction yields both a non-empty include and a
non-empty exclude list fails with
`UnlessAndIfDomainTogetherUnsupported` instead of producing any rule (for
the network converter, once the earlier precondition checks pass; for the
cosmetic converter likewise). -/
theorem C2_domain_exclusivity :
    (∀ (pf : ParsedFilter) (res : CbRuleEquivalent),
      tryFromParsedFilter pf = .ok res →
      ∀ r ∈ res.rules,
        ¬(r.trigger.if_domain.isSome = true ∧
          r.trigger.unless_domain.isSome = true)) ∧
    (∀ (v : NetworkFilter) (rawLine uf : Str) (a b : List Str),
      v.rawLine = some rawLine → v.redirect = none →
      v.mask.fuzzyMatch = false → v.mask.genericHide = false →
      v.mask.explicitCancel = false → v.mask.badFilter = false →
      v.mask.isCsp = false →
      urlFilterOf v = .ok uf →
      extractNetworkDomains v rawLine = .ok (some a, some b) →
      tryFromNetworkFilter v = .err .unlessAndIfDomainTogetherUnsupported) ∧
    (∀ (v : CosmeticFilter) (rawLine : Str) (a b : List Str),
      v.style = none → v.mask.scriptInject = false →
      v.rawLine = some rawLine → rawLine.contains '#' = true →
      cosmeticAnyEntities rawLine = false →
      non_empty (cosmeticHostnames rawLine) = some a →
      non_empty (cosmeticNotHostnames rawLine) = some b →
      tryFromCosmeticFilter v = .err .unlessAndIfDomainTogetherUnsupported) := by
  refine ⟨?_, ?_, ?_⟩
  · intro pf res hok r hr
    cases pf with
    | network v =>
      unfold tryFromParsedFilter at hok
      dsimp only at hok
      unfold tryFromNetworkFilter at hok
      cases hc : networkCandidate v with
      | ok cand =>
        rw [hc] at hok
        dsimp only at hok
        cases hok
        obtain ⟨hif, hunless, -⟩ := mem_splitStep_rules cand r hr
        rw [hif, hunless]
        exact networkCandidate_not_both v cand hc
      | err e =>
        rw [hc] at hok
        exact Conv.noConfusion hok
      | abort =>
        rw [hc] at hok
        exact Conv.noConfusion hok
    | cosmetic v =>
      unfold tryFromParsedFilter at hok
      dsimp only at hok
      cases hc : tryFromCosmeticFilter v with
      | ok r0 =>
        rw [hc] at hok
        dsimp only at hok
        cases hok
        simp only [CbRuleEquivalent.rules, List.mem_cons,
          List.not_mem_nil, or_false] at hr
        obtain ⟨raw, -, hrule, hboth⟩ := tryFromCosmeticFilter_ok_spec v r0 hc
        subst hr
        subst hrule
        intro hcontra
        apply hboth
        rcases hu : v.mask.unhide with - | -
        · simpa [hu] using And.intro hcontra.1 hcontra.2
        · simpa [hu] using And.intro hcontra.2 hcontra.1
      | err e =>
        rw [hc] at hok
        exact Conv.noConfusion hok
      | abort =>
        rw [hc] at hok
        exact Conv.noConfusion hok
  · intro v rawLine uf a b hraw hred hfuzzy hgh hec hbf hcsp hurl hext
    unfold tryFromNetworkFilter networkCandidate
    rw [hraw]
    simp only [hred, Option.isSome_none, Bool.false_eq_true, if_false,
      hfuzzy, hgh, hec, hbf, hcsp]
    rw [hurl]
    try dsimp only
    rw [hext]
    try dsimp only
    rw [if_pos ⟨rfl, rfl⟩]
  · intro v rawLine a b hstyle hsi hraw hsharp hent hne1 hne2
    unfold tryFromCosmeticFilter
    rw [hraw]
    simp only [hstyle, Option.isSome_none, Bool.false_eq_true, if_false, hsi]
    rw [hsharp]
    simp only [hent, Bool.true_eq_false, not_true_eq_false, if_false,
      Bool.not_true, Bool.false_eq_true]
    try dsimp only
    rw [if_pos (by rw [hne1, hne2]; exact ⟨rfl, rfl⟩)]

/-- Witness for C2 at `exBothDomainsFilter` (`domain=a.com|~b.com`): the
conversion fails with the domain-lists-conflict error. -/
theorem C2_domain_exclusivity_witness :
    tryFromNetworkFilter exBothDomainsFilter =
      .err .unlessAndIfDomainTogetherUnsupported :=
  C2_domain_exclusivity.2.1 exBothDomainsFilter
    (strL "||h^$domain=a.com|~b.com")
    (strL "^[^:]+:(//)?([^/]+\\.)?h")
    [strL "*a.com"] [strL "*b.com"]
    rfl rfl rfl rfl rfl rfl rfl (by decide) (by decide)

/-- Membership in a conditional insert. -/
theorem mem_ite_insert {c : Prop} [Decidable c] (x t : CbResourceType)
    (s : Finset CbResourceType) :
    (t ∈ if c then insert x s else s) ↔ ((t = x ∧ c) ∨ t ∈ s) := by
  split_ifs with h <;> simp [Finset.mem_insert, h]

/-- Membership in the mapped resource-type set, flag by flag. -/
theorem mem_mappedResourceTypes (m : NetworkFilterMask) (t : CbResourceType) :
    t ∈ mappedResourceTypes m ↔
      (t = .image ∧ m.fromImage = true) ∨
      (t = .media ∧ m.fromMedia = true) ∨
      (t = .script ∧ m.fromScript = true) ∨
      (t = .styleSheet ∧ m.fromStylesheet = true) ∨
      (t = .document ∧ m.fromSubdocument = true) ∨
      (t = .raw ∧ m.fromXmlhttprequest = true) ∨
      (t = .font ∧ m.fromFont = true) := by
  unfold mappedResourceTypes
  dsimp only
  simp only [mem_ite_insert, Finset.not_mem_empty, or_false]
  tauto

/-- The accumulated unsupported-flags mask is exactly the object / other /
ping / websocket flags of the input. -/
theorem unsupportedFlagsOf_eq (m : NetworkFilterMask) :
    unsupportedFlagsOf m = { NetworkFilterMask.empty with
      fromObject := m.fromObject, fromOther := m.fromOther,
      fromPing := m.fromPing, fromWebsocket := m.fromWebsocket } := by
  obtain ⟨b1, b2, b3, b4, fw, fi, fme, fo, fot, fpi, fs, fst, fsu, fx, ff,
    b16, b17, b18, b19, b20, b21, b22, b23, b24, b25⟩ := m
  dsimp only [unsupportedFlagsOf]
  cases fo <;> cases fot <;> cases fpi <;> cases fw <;> rfl

/-- C4: for a record not matching all resource types, if no supported
resource-type flag is set but at least one unsupported flag (object, other,
ping, websocket) is, the computation fails with
`NoSupportedNetworkOptions` carrying exactly the set unsupported flags; if
some supported flag is set, the computation succeeds with the mapped set
(image, media, script, style-sheet, sub-document as document, raw for
xml-http-request, font) and the unsupported flags are silently dropped. -/
theorem C4_resource_type_mapping (m : NetworkFilterMask)
    (hany : m.from_any = false) :
    ((m.fromImage || m.fromMedia || m.fromScript || m.fromStylesheet ||
        m.fromSubdocument || m.fromXmlhttprequest || m.fromFont) = false →
      (m.fromObject || m.fromOther || m.fromPing || m.fromWebsocket) = true →
      computeResourceTypes m = .err (.noSupportedNetworkOptions
        { NetworkFilterMask.empty with
            fromObject := m.fromObject, fromOther := m.fromOther,
            fromPing := m.fromPing, fromWebsocket := m.fromWebsocket })) ∧
    ((m.fromImage || m.fromMedia || m.fromScript || m.fromStylesheet ||
        m.fromSubdocument || m.fromXmlhttprequest || m.fromFont) = true →
      computeResourceTypes m = .ok (some (mappedResourceTypes m)) ∧
      (CbResourceType.image ∈ mappedResourceTypes m ↔ m.fromImage = true) ∧
      (CbResourceType.media ∈ mappedResourceTypes m ↔ m.fromMedia = true) ∧
      (CbResourceType.script ∈ mappedResourceTypes m ↔ m.fromScript = true) ∧
      (CbResourceType.styleSheet ∈ mappedResourceTypes m ↔
        m.fromStylesheet = true) ∧
      (CbResourceType.document ∈ mappedResourceTypes m ↔
        m.fromSubdocument = true) ∧
      (CbResourceType.raw ∈ mappedResourceTypes m ↔
        m.fromXmlhttprequest = true) ∧
      (CbResourceType.font ∈ mappedResourceTypes m ↔ m.fromFont = true) ∧
      CbResourceType.popup ∉ mappedResourceTypes m ∧
      CbResourceType.svgDocument ∉ mappedResourceTypes m) := by
  constructor
  · intro hsup hunsup
    have hflags : m.fromImage = false ∧ m.fromMedia = false ∧
        m.fromScript = false ∧ m.fromStylesheet = false ∧
        m.fromSubdocument = false ∧ m.fromXmlhttprequest = false ∧
        m.fromFont = false := by
      simp only [Bool.or_eq_false_iff] at hsup
      tauto
    have hempty : mappedResourceTypes m = ∅ := by
      apply Finset.eq_empty_iff_forall_not_mem.mpr
      intro t ht
      rw [mem_mappedResourceTypes] at ht
      obtain ⟨h1, h2, h3, h4, h5, h6, h7⟩ := hflags
      rcases ht with ⟨-, h⟩ | ⟨-, h⟩ | ⟨-, h⟩ | ⟨-, h⟩ | ⟨-, h⟩ |
        ⟨-, h⟩ | ⟨-, h⟩ <;> simp_all
    have hne : unsupportedFlagsOf m ≠ NetworkFilterMask.empty := by
      rw [unsupportedFlagsOf_eq]
      intro heq
      have h1 := congrArg NetworkFilterMask.fromObject heq
      have h2 := congrArg NetworkFilterMask.fromOther heq
      have h3 := congrArg NetworkFilterMask.fromPing heq
      have h4 := congrArg NetworkFilterMask.fromWebsocket heq
      simp only [NetworkFilterMask.empty] at h1 h2 h3 h4
      simp_all
    unfold computeResourceTypes
    dsimp only
    rw [if_neg (by simp [hany]), if_pos ⟨hne, hempty⟩,
      unsupportedFlagsOf_eq]
  · intro hsup
    have hne : mappedResourceTypes m ≠ ∅ := by
      intro hemp
      have hall := Finset.eq_empty_iff_forall_not_mem.mp hemp
      simp only [Bool.or_eq_true] at hsup
      rcases hsup with ((((((h | h) | h) | h) | h) | h) | h)
      · exact hall .image ((mem_mappedResourceTypes m .image).mpr
          (Or.inl ⟨rfl, h⟩))
      · exact hall .media ((mem_mappedResourceTypes m .media).mpr
          (Or.inr (Or.inl ⟨rfl, h⟩)))
      · exact hall .script ((mem_mappedResourceTypes m .script).mpr
          (Or.inr (Or.inr (Or.inl ⟨rfl, h⟩))))
      · exact hall .styleSheet ((mem_mappedResourceTypes m .styleSheet).mpr
          (Or.inr (Or.inr (Or.inr (Or.inl ⟨rfl, h⟩)))))
      · exact hall .document ((mem_mappedResourceTypes m .document).mpr
          (Or.inr (Or.inr (Or.inr (Or.inr (Or.inl ⟨rfl, h⟩))))))
      · exact hall .raw ((mem_mappedResourceTypes m .raw).mpr
          (Or.inr (Or.inr (Or.inr (Or.inr (Or.inr (Or.inl ⟨rfl, h⟩)))))))
      · exact hall .font ((mem_mappedResourceTypes m .font).mpr
          (Or.inr (Or.inr (Or.inr (Or.inr (Or.inr (Or.inr ⟨rfl, h⟩)))))))
    refine ⟨?_, ?_, ?_, ?_, ?_, ?_, ?_, ?_, ?_, ?_⟩
    · unfold computeResourceTypes
      dsimp only
      rw [if_neg (by simp [hany]), if_neg (fun hc => hne hc.2)]
    · rw [mem_mappedResourceTypes]; simp
    · rw [mem_mappedResourceTypes]; simp
    · rw [mem_mappedResourceTypes]; simp
    · rw [mem_mappedResourceTypes]; simp
    · rw [mem_mappedResourceTypes]; simp
    · rw [mem_mappedResourceTypes]; simp
    · rw [mem_mappedResourceTypes]; simp
    · rw [mem_mappedResourceTypes]; simp
    · rw [mem_mappedResourceTypes]; simp

/-- Witness for C4 at a mask with only `object` set (error carrying exactly
that flag) and at a mask mixing `image` with `ping` (success, ping
dropped). -/
theorem C4_resource_type_mapping_witness :
    computeResourceTypes exUnsupportedOnlyMask =
      .err (.noSupportedNetworkOptions
        { NetworkFilterMask.empty with
            fromObject := exUnsupportedOnlyMask.fromObject,
            fromOther := exUnsupportedOnlyMask.fromOther,
            fromPing := exUnsupportedOnlyMask.fromPing,
            fromWebsocket := exUnsupportedOnlyMask.fromWebsocket }) ∧
    computeResourceTypes exMixedMask =
      .ok (some (mappedResourceTypes exMixedMask)) :=
  ⟨(C4_resource_type_mapping exUnsupportedOnlyMask rfl).1 rfl rfl,
   ((C4_resource_type_mapping exMixedMask rfl).2 rfl).1⟩

theorem transformBody_eq_nil_iff (part : Str) :
    transformBody part = [] ↔ dropTrailingSeparator part = [] := by
  unfold transformBody
  rw [replaceWildcards_escape]
  exact specEscapeOnce_eq_nil_iff _

/-- A successful candidate's url-filter is the synthesized one. -/
theorem networkCandidate_url_filter (v : NetworkFilter) (r : CbRule)
    (h : networkCandidate v = .ok r) :
    urlFilterOf v = .ok r.trigger.url_filter := by
  unfold networkCandidate at h
  split at h
  · exact Conv.noConfusion h
  split at h
  · exact Conv.noConfusion h
  split at h
  · exact Conv.noConfusion h
  split at h
  · exact Conv.noConfusion h
  split at h
  · exact Conv.noConfusion h
  split at h
  · exact Conv.noConfusion h
  split at h
  · exact Conv.noConfusion h
  dsimp only at h
  split at h
  · exact Conv.noConfusion h
  · exact Conv.noConfusion h
  rename_i uf hurl
  split at h
  · exact Conv.noConfusion h
  · exact Conv.noConfusion h
  split at h
  · exact Conv.noConfusion h
  split at h
  · exact Conv.noConfusion h
  · exact Conv.noConfusion h
  cases h
  exact hurl

/-- The synthesized url-filter is empty only for a simple body reducing to
the empty string with no hostname, no anchors, and both HTTP and HTTPS
scheme flags. -/
theorem urlFilterOf_ok_nil (v : NetworkFilter) (h : urlFilterOf v = .ok []) :
    (∃ part, v.filter = .simple part ∧ dropTrailingSeparator part = []) ∧
    v.hostname = none ∧ v.mask.isLeftAnchor = false ∧
    v.mask.isRightAnchor = false ∧ v.mask.fromHttp = true ∧
    v.mask.fromHttps = true := by
  unfold urlFilterOf at h
  split at h
  · exact Conv.noConfusion h
  · -- simple part, some hostname: the url filter starts with the host
    -- anchoring pattern and cannot be empty
    dsimp only at h
    cases hreg : v.mask.isHostnameRegex <;>
      cases hra : v.mask.isRightAnchor <;>
        simp only [hreg, hra, Bool.false_eq_true, Bool.true_eq_false,
          if_false, if_true, Conv.ok.injEq, List.append_eq_nil] at h <;>
        exact absurd
          (by tauto : strL "^[^:]+:(//)?([^/]+\\.)?" = []) (by decide)
  · -- simple part, no hostname
    rename_i part hfil hhost
    dsimp only at h
    cases hla : v.mask.isLeftAnchor
    · rw [hla] at h
      simp only [Bool.false_eq_true, if_false] at h
      cases hboth : (v.mask.fromHttp && v.mask.fromHttps)
      · -- not both schemes: the scheme prefix is one of the non-empty
        -- literals, or the match aborts
        rw [hboth] at h
        simp only [Bool.false_eq_true, if_false] at h
        cases hh : v.mask.fromHttp <;> rw [hh] at h <;>
          simp only [Bool.false_eq_true, Bool.true_eq_false, if_false,
            if_true] at h
        · cases hhs : v.mask.fromHttps <;> rw [hhs] at h <;>
            simp only [Bool.false_eq_true, Bool.true_eq_false, if_false,
              if_true] at h
          · cases hws : v.mask.fromWebsocket <;> rw [hws] at h <;>
              simp only [Bool.false_eq_true, Bool.true_eq_false, if_false,
                if_true] at h
            · exact Conv.noConfusion h
            · cases hra : v.mask.isRightAnchor <;> rw [hra] at h <;>
                simp only [Bool.false_eq_true, Bool.true_eq_false, if_false,
                  if_true, Conv.ok.injEq, List.append_eq_nil] at h <;>
                exact absurd (by tauto : strL "^wss?://.*" = []) (by decide)
          · cases hra : v.mask.isRightAnchor <;> rw [hra] at h <;>
              simp only [Bool.false_eq_true, Bool.true_eq_false, if_false,
                if_true, Conv.ok.injEq, List.append_eq_nil] at h <;>
              exact absurd (by tauto : strL "^https://.*" = []) (by decide)
        · cases hra : v.mask.isRightAnchor <;> rw [hra] at h <;>
            simp only [Bool.false_eq_true, Bool.true_eq_false, if_false,
              if_true, Conv.ok.injEq, List.append_eq_nil] at h <;>
            exact absurd (by tauto : strL "^http://.*" = []) (by decide)
      · -- both schemes: empty prefix, so the body must be empty
        rw [hboth] at h
        simp only [if_true] at h
        cases hra : v.mask.isRightAnchor <;> rw [hra] at h <;>
          simp only [Bool.false_eq_true, Bool.true_eq_false, if_false,
            if_true, Conv.ok.injEq, List.append_eq_nil] at h
        · obtain ⟨hhttp, hhttps⟩ := Bool.and_eq_true_iff.mp hboth
          refine ⟨⟨part, hfil, ?_⟩, hhost, rfl, rfl, hhttp, hhttps⟩
          rw [← transformBody_eq_nil_iff]
          exact h.2
        · exact absurd (by tauto : strL "$" = []) (by decide)
    · -- left anchor: the url filter starts with `^`
      rw [hla] at h
      simp only [if_true] at h
      cases hra : v.mask.isRightAnchor <;> rw [hra] at h <;>
        simp only [Bool.false_eq_true, Bool.true_eq_false, if_false,
          if_true, Conv.ok.injEq, List.append_eq_nil] at h <;>
        exact absurd (by tauto : strL "^" = []) (by decide)
  · -- empty filter, some hostname
    simp only [Conv.ok.injEq, List.append_eq_nil] at h
    exact absurd (by tauto : strL "^[^:]+:(//)?([^/]+\\.)?" = []) (by decide)
  · -- empty filter, no hostname: every scheme prefix is non-empty
    split at h
    · exact absurd (Conv.ok.inj h) (by decide)
    split at h
    · exact absurd (Conv.ok.inj h) (by decide)
    split at h
    · exact absurd (Conv.ok.inj h) (by decide)
    split at h
    · exact absurd (Conv.ok.inj h) (by decide)
    · exact Conv.noConfusion h

/-- C6 (amended): every rule produced by a successful conversion has a
non-empty url-filter, except when the source is a network record whose
simple body reduces to the empty string after dropping a trailing `^`
separator, with no hostname, no left or right anchor, and both the HTTP and
HTTPS scheme flags set — stated in contrapositive form: an empty url-filter
forces exactly that configuration (in particular, cosmetic records never
produce one). -/
theorem C6_url_filter_nonempty :
    ∀ (pf : ParsedFilter) (res : CbRuleEquivalent),
      tryFromParsedFilter pf = .ok res →
      ∀ r ∈ res.rules, r.trigger.url_filter = [] →
      ∃ (v : NetworkFilter) (part : Str),
        pf = .network v ∧ v.filter = .simple part ∧
        dropTrailingSeparator part = [] ∧ v.hostname = none ∧
        v.mask.isLeftAnchor = false ∧ v.mask.isRightAnchor = false ∧
        v.mask.fromHttp = true ∧ v.mask.fromHttps = true := by
  intro pf res hok r hr hnil
  cases pf with
  | network v =>
    unfold tryFromParsedFilter at hok
    dsimp only at hok
    unfold tryFromNetworkFilter at hok
    cases hc : networkCandidate v with
    | ok cand =>
      rw [hc] at hok
      dsimp only at hok
      cases hok
      obtain ⟨-, -, hurl⟩ := mem_splitStep_rules cand r hr
      rw [hnil] at hurl
      have hnilc := networkCandidate_url_filter v cand hc
      rw [← hurl] at hnilc
      obtain ⟨⟨part, hfil, hdrop⟩, hhost, hla, hra, hhttp, hhttps⟩ :=
        urlFilterOf_ok_nil v hnilc
      exact ⟨v, part, rfl, hfil, hdrop, hhost, hla, hra, hhttp, hhttps⟩
    | err e =>
      rw [hc] at hok
      exact Conv.noConfusion hok
    | abort =>
      rw [hc] at hok
      exact Conv.noConfusion hok
  | cosmetic v =>
    unfold tryFromParsedFilter at hok
    dsimp only at hok
    cases hc : tryFromCosmeticFilter v with
    | ok r0 =>
      rw [hc] at hok
      dsimp only at hok
      cases hok
      simp only [CbRuleEquivalent.rules, List.mem_cons,
        List.not_mem_nil, or_false] at hr
      obtain ⟨raw, -, hrule, -⟩ := tryFromCosmeticFilter_ok_spec v r0 hc
      subst hr
      subst hrule
      have hx : strL ".*" = [] := hnil
      exact absurd hx (by decide)
    | err e =>
      rw [hc] at hok
      exact Conv.noConfusion hok
    | abort =>
      rw [hc] at hok
      exact Conv.noConfusion hok

/-- Counterexample to C6 as stated: the network record with simple body `^`,
no hostname, both HTTP and HTTPS flags and no anchors converts successfully
to a single rule whose url-filter is the empty string. -/
theorem C6_url_filter_nonempty_counterexample :
    tryFromParsedFilter (.network exEmptyUrlFilter) =
      .ok (.singleRule exEmptyUrlRule) ∧
    exEmptyUrlRule ∈ (CbRuleEquivalent.singleRule exEmptyUrlRule).rules ∧
    exEmptyUrlRule.trigger.url_filter = [] :=
  ⟨rfl, by simp [CbRuleEquivalent.rules], rfl⟩

/-- Witness for the amended C6 at the counterexample record. -/
theorem C6_url_filter_nonempty_witness :
    ∃ (v : NetworkFilter) (part : Str),
      ParsedFilter.network exEmptyUrlFilter = .network v ∧
      v.filter = .simple part ∧
      dropTrailingSeparator part = [] ∧ v.hostname = none ∧
      v.mask.isLeftAnchor = false ∧ v.mask.isRightAnchor = false ∧
      v.mask.fromHttp = true ∧ v.mask.fromHttps = true :=
  C6_url_filter_nonempty (.network exEmptyUrlFilter)
    (.singleRule exEmptyUrlRule) rfl exEmptyUrlRule
    (by simp [CbRuleEquivalent.rules]) rfl
